import Mathlib

/-!
Verification of the TAFSIRI backend configuration API (`src/routes/config_api.py`)
via a shallow embedding in Lean 4.

Strings are Lean `String`s; MongoDB object identifiers are modelled as the
natural number denoted by their 12 bytes (equivalently their 24 hex digits).
The byte-level connection-string machinery of the connection tester appears
further below and works on `List Nat` (UTF-8 byte sequences), because Python's
`urllib.parse.quote_plus` operates on the UTF-8 encoding of its input.
-/

namespace Tafsiri

/-! ## Object identifiers (`bson.objectid.ObjectId`) -/

/-- Value of a single hex digit character, `none` on a non-hex character. -/
def hexDigitVal (c : Char) : Option Nat :=
  if 48 ≤ c.toNat ∧ c.toNat ≤ 57 then some (c.toNat - 48)
  else if 65 ≤ c.toNat ∧ c.toNat ≤ 70 then some (c.toNat - 55)
  else if 97 ≤ c.toNat ∧ c.toNat ≤ 102 then some (c.toNat - 87)
  else none

/-- Whether a character is a hex digit (`0-9`, `A-F`, `a-f`). -/
def isHexDigitChar (c : Char) : Bool :=
  (hexDigitVal c).isSome

/-- Numeric value of a big-endian hex digit string. -/
def hexValue (l : List Char) : Nat :=
  l.foldl (fun acc c => 16 * acc + ((hexDigitVal c).getD 0)) 0

/-- `ObjectId(config_id)` on a string argument: succeeds exactly on a
24-character hex string (the hex encoding of a 12-byte identifier) and yields
the denoted 96-bit value; any other string raises `InvalidId`, modelled as
`none`. -/
def parseObjectId (s : String) : Option Nat :=
  if s.length = 24 ∧ s.data.all isHexDigitChar then some (hexValue s.data) else none

/-- Lowercase hex digit character of a value `< 16`. -/
def hexDigitChar (n : Nat) : Char :=
  if n < 10 then Char.ofNat (48 + n) else Char.ofNat (87 + n)

/-- Big-endian hex digits of `n`, padded/truncated to width `k`. -/
def natToHex : Nat → Nat → List Char
  | 0, _ => []
  | k + 1, n => natToHex k (n / 16) ++ [hexDigitChar (n % 16)]

/-- `str(oid)`: the 24-character lowercase hex rendering of an identifier. -/
def oidToString (n : Nat) : String :=
  ⟨natToHex 24 n⟩

/-! ## Documents and the configuration collection -/

/-- A stored configuration document: the system-assigned `_id` plus the
remaining fields. Field values are modelled as strings; only their identity
matters to the routes. -/
structure StoredDoc where
  oid : Nat
  fields : List (String × String)
deriving DecidableEq, Repr

/-- The `CONFIGS_COLLECTION` MongoDB collection: the stored documents in
insertion order. -/
abbrev Collection : Type := List StoredDoc

/-- A document as returned over HTTP: `_id` already stringified. -/
structure OutDoc where
  idStr : String
  fields : List (String × String)
deriving DecidableEq, Repr

/-- `HTTPException(status_code, detail)`. -/
structure HTTPError where
  status_code : Nat
  detail : String
deriving DecidableEq, Repr

/-- `format_mongo_obj`: convert the document's `_id` to its string form. -/
def format_mongo_obj (d : StoredDoc) : OutDoc :=
  ⟨oidToString d.oid, d.fields⟩

/-- `collection.find_one({"_id": i})`: the first stored document with the
given identifier. -/
def find_one : Collection → Nat → Option StoredDoc
  | [], _ => none
  | d :: rest, i => if d.oid = i then some d else find_one rest i

/-- First value bound to key `q` in an association list of fields. -/
def getField : List (String × String) → String → Option String
  | [], _ => none
  | (k, v) :: rest, q => if k = q then some v else getField rest q

/-- One `$set` assignment: replace the value at the key in place (field order
preserved) if the key is present, otherwise append the new field at the end
(MongoDB `$set` semantics on duplicate-free documents). -/
def setField : List (String × String) → String → String → List (String × String)
  | [], k, v => [(k, v)]
  | (k1, v1) :: rest, k, v =>
    if k1 = k then (k, v) :: rest else (k1, v1) :: setField rest k v

/-- `{"$set": upd}` applied to a document's fields. -/
def applySet (fs : List (String × String)) (upd : List (String × String)) :
    List (String × String) :=
  upd.foldl (fun acc p => setField acc p.1 p.2) fs

/-- Replace the fields of the first document matching `i` by the result of
`$set`, leaving every other document untouched. -/
def updateFirst : Collection → Nat → List (String × String) → Collection
  | [], _, _ => []
  | d :: rest, i, upd =>
    if d.oid = i then ⟨d.oid, applySet d.fields upd⟩ :: rest
    else d :: updateFirst rest i upd

/-- Remove the first document matching `i`. -/
def eraseFirst : Collection → Nat → Collection
  | [], _ => []
  | d :: rest, i => if d.oid = i then rest else d :: eraseFirst rest i

/-- Result object of `collection.insert_one`. -/
structure InsertOneResult where
  inserted_id : Option Nat
deriving DecidableEq, Repr

/-- `collection.insert_one(fields)`. The store either assigns a fresh
identifier and reports it (`report = some i`), or reports no inserted
identifier (`report = none`, kept abstract: the route only branches on
whether an identifier was reported). -/
def insert_one (c : Collection) (fs : List (String × String)) (report : Option Nat) :
    Collection × InsertOneResult :=
  match report with
  | some i => (c ++ [⟨i, fs⟩], ⟨some i⟩)
  | none => (c, ⟨none⟩)

/-- Result object of `collection.update_one`. -/
structure UpdateResult where
  matched_count : Nat
  modified_count : Nat
deriving DecidableEq, Repr

/-- `collection.update_one({"_id": i}, {"$set": upd})`: updates the first
matching document; `modified_count` is 1 exactly when the matched document
actually changed (a no-op `$set` modifies nothing). -/
def update_one (c : Collection) (i : Nat) (upd : List (String × String)) :
    Collection × UpdateResult :=
  match find_one c i with
  | none => (c, ⟨0, 0⟩)
  | some d =>
    (updateFirst c i upd, ⟨1, if applySet d.fields upd = d.fields then 0 else 1⟩)

/-- Result object of `collection.delete_one`. -/
structure DeleteResult where
  deleted_count : Nat
deriving DecidableEq, Repr

/-- `collection.delete_one({"_id": i})`: removes the first matching document. -/
def delete_one (c : Collection) (i : Nat) : Collection × DeleteResult :=
  match find_one c i with
  | none => (c, ⟨0⟩)
  | some _ => (eraseFirst c i, ⟨1⟩)

/-! ## Request payloads -/

/-- Modelled from the spec: `TafsiriConfigSchema` (`database/schema.py`, absent
from `src/`) is a validated configuration schema with an
implementation-defined set of fields. An instance carries the
explicitly-set fields (in order) and the schema defaults standing in for the
unset fields; `model_dump(exclude_unset=True)` returns only the former. -/
structure TafsiriConfigSchema where
  setFields : List (String × String)
  unsetDefaults : List (String × String)
deriving DecidableEq, Repr

/-- `config.model_dump(exclude_unset=True)`: exactly the explicitly-set
fields. -/
def model_dump_exclude_unset (c : TafsiriConfigSchema) : List (String × String) :=
  c.setFields

/-! ## The CRUD route handlers

Modelled from the spec where the imported helper is absent from `src/`:
`get_mongo_collection` (`database/database.py`) may fail to produce a
collection handle ("fails with a storage-unavailable error (500) if the
underlying collection handle cannot be obtained"), so each handler receives
the handle as an `Option Collection`. Handlers that write receive the store
state and return the new state alongside the HTTP outcome. -/

/-- `GET /get_configs`. -/
def get_configs (coll : Collection) : Except HTTPError (List OutDoc) :=
  .ok (coll.map format_mongo_obj)

/-- `POST /new_config`. -/
def create_new_config (config : TafsiriConfigSchema) (coll : Collection)
    (report : Option Nat) : Collection × Except HTTPError OutDoc :=
  let config_data := model_dump_exclude_unset config
  let res := insert_one coll config_data report
  match res.2.inserted_id with
  | some i => (res.1, .ok ⟨oidToString i, config_data⟩)
  | none => (res.1, .error ⟨400, "Configuration could not be created"⟩)

/-- `GET /get_config/{config_id}`. -/
def get_config (collOpt : Option Collection) (config_id : String) :
    Except HTTPError OutDoc :=
  match collOpt with
  | none => .error ⟨500, "Collection not found"⟩
  | some coll =>
    match parseObjectId config_id with
    | none => .error ⟨400, "Invalid config ID format"⟩
    | some oid =>
      match find_one coll oid with
      | none => .error ⟨404, "Config not found"⟩
      | some config => .ok (format_mongo_obj config)

/-- `PUT /update_config/{config_id}`. The final `none` refetch branch is
unreachable in this sequential model (a modified document is still present);
in the Python source it would be an uncaught `TypeError`, surfaced by the
framework as a 500. -/
def update_config (config_id : String) (updated_config : TafsiriConfigSchema)
    (collOpt : Option Collection) : Option Collection × Except HTTPError OutDoc :=
  match collOpt with
  | none => (none, .error ⟨500, "Collection not found"⟩)
  | some coll =>
    match parseObjectId config_id with
    | none => (some coll, .error ⟨400, "Invalid config ID format"⟩)
    | some oid =>
      match find_one coll oid with
      | none => (some coll, .error ⟨404, "Config not found"⟩)
      | some _ =>
        let updated_data := model_dump_exclude_unset updated_config
        let res := update_one coll oid updated_data
        if res.2.modified_count = 1 then
          match find_one res.1 oid with
          | some updated_config_data => (some res.1, .ok (format_mongo_obj updated_config_data))
          | none => (some res.1, .error ⟨500, "Internal Server Error"⟩)
        else
          (some res.1, .error ⟨400, "Configuration could not be updated"⟩)

/-- Success body of `DELETE /delete_config/{config_id}`. -/
structure DeleteResponse where
  message : String
deriving DecidableEq, Repr

/-- `DELETE /delete_config/{config_id}`. -/
def delete_config (collOpt : Option Collection) (config_id : String) :
    Option Collection × Except HTTPError DeleteResponse :=
  match collOpt with
  | none => (none, .error ⟨500, "Collection not found"⟩)
  | some coll =>
    match parseObjectId config_id with
    | none => (some coll, .error ⟨400, "Invalid config ID format"⟩)
    | some oid =>
      let res := delete_one coll oid
      if res.2.deleted_count = 1 then (some res.1, .ok ⟨"Config deleted successfully"⟩)
      else (some res.1, .error ⟨404, "Config not found"⟩)

/-! ## The connection tester

Byte-level embedding: every string of `DBConnectionRequest` is its UTF-8 byte
sequence, a `List Nat` of values `< 256`. -/

/-- A UTF-8 byte sequence. -/
abbrev Bytes : Type := List Nat

/-- Whether a byte is left untouched by `urllib.parse.quote_plus`: ASCII
letters, digits, and `_`, `.`, `-`, `~`. -/
def isSafeByte (b : Nat) : Bool :=
  (48 ≤ b && b ≤ 57) || (65 ≤ b && b ≤ 90) || (97 ≤ b && b ≤ 122) ||
    b == 95 || b == 46 || b == 45 || b == 126

/-- Uppercase hex digit byte of a value `< 16`, as used in `%XX` escapes. -/
def hexUpperDigit (n : Nat) : Nat :=
  if n < 10 then 48 + n else 55 + n

/-- Encoding of a single byte under `quote_plus`: safe bytes unchanged, the
space byte becomes `+` (43), everything else becomes `%XX`. -/
def encByte (b : Nat) : Bytes :=
  if isSafeByte b then [b]
  else if b = 32 then [43]
  else [37, hexUpperDigit (b / 16), hexUpperDigit (b % 16)]

/-- `urllib.parse.quote_plus` on a UTF-8 byte sequence. -/
def quote_plus (bs : Bytes) : Bytes :=
  (bs.map encByte).flatten

/-- Value of a single hex digit byte (`0-9`, `A-F`, `a-f`), `none` otherwise. -/
def hexByteVal (b : Nat) : Option Nat :=
  if 48 ≤ b ∧ b ≤ 57 then some (b - 48)
  else if 65 ≤ b ∧ b ≤ 70 then some (b - 55)
  else if 97 ≤ b ∧ b ≤ 102 then some (b - 87)
  else none

/-- `urllib.parse.unquote_plus` on a UTF-8 byte sequence: `%XX` escapes are
decoded, `+` becomes a space, an invalid `%` sequence is kept verbatim. -/
def unquote_plus : Bytes → Bytes
  | [] => []
  | 37 :: h :: lo :: rest2 =>
    match hexByteVal h, hexByteVal lo with
    | some x, some y => (16 * x + y) :: unquote_plus rest2
    | _, _ => 37 :: unquote_plus (h :: lo :: rest2)
  | 43 :: rest => 32 :: unquote_plus rest
  | b :: rest => if b = 43 then 32 :: unquote_plus rest else b :: unquote_plus rest
termination_by l => l.length
decreasing_by all_goals simp [List.length_cons] <;> omega

/-- Body of `POST /test_db_connection` (`DBConnectionRequest`). -/
structure DBConnectionRequest where
  db_type : Bytes
  host_port : Bytes
  database : Bytes
  username : Bytes
  password : Bytes
deriving DecidableEq, Repr

/-- The connection string assembled by `test_db_connection`:
`f"{db_type}://{username}:{quote_plus(password)}@{host_port}/{database}"`
(58 = `:`, 47 = `/`, 64 = `@`). -/
def db_url (d : DBConnectionRequest) : Bytes :=
  d.db_type ++ [58, 47, 47] ++ d.username ++ [58] ++ quote_plus d.password ++ [64] ++
    d.host_port ++ [47] ++ d.database

/-- Modelled from the spec: the relational driver (`sqlalchemy`, an external
collaborator) can raise an `OperationalError` or any other `Exception`-derived
error while creating the engine or opening/closing the connection; `str(e)`
is the carried description. -/
inductive PyExc where
  | operationalError (msg : Bytes)
  | otherError (msg : Bytes)
deriving DecidableEq, Repr

/-- `str(e)` of a driver exception. -/
def pyExcStr : PyExc → Bytes
  | .operationalError m => m
  | .otherError m => m

/-- Modelled from the spec: the behaviour of
`create_engine(db_url); conn = engine.connect(); conn.close()` for a given
connection string — either the open/close cycle completes or some exception
is raised. A `Driver` maps the connection string to that outcome. -/
def Driver : Type := Bytes → Except PyExc Unit

/-- `test_db(db_url)`: runs the open/close cycle under `try/except`;
`OperationalError` and every other `Exception` alike are caught and turned
into `(False, str(e))`. The `Except PyExc` in the result type is the room an
uncaught exception would need; the code never uses it. -/
def test_db (attempt : Driver) (url : Bytes) : Except PyExc (Bool × Option Bytes) :=
  match attempt url with
  | .ok _ => .ok (true, none)
  | .error e =>
    match e with
    | .operationalError m => .ok (false, some m)
    | .otherError m => .ok (false, some m)

/-- Success body of `POST /test_db_connection`. -/
structure ConnOk where
  status : String
deriving DecidableEq, Repr

/-- `HTTPException` raised by `test_db_connection`; its `detail` is the raw
driver message bytes (possibly `None` in the type, never in practice). -/
structure ConnHTTPError where
  status_code : Nat
  detail : Option Bytes
deriving DecidableEq, Repr

/-- `POST /test_db_connection`. The final branch is unreachable because
`test_db` never lets an exception out (see the C9 theorem); the framework
would surface such an escape as a 500 with no detail. -/
def test_db_connection (attempt : Driver) (data : DBConnectionRequest) :
    Except ConnHTTPError ConnOk :=
  match test_db attempt (db_url data) with
  | .ok (true, _) => .ok ⟨"Database connection successful"⟩
  | .ok (false, m) => .error ⟨500, m⟩
  | .error _ => .error ⟨500, none⟩

/-! ## Lemmas on `quote_plus` / `unquote_plus` -/

theorem hexByteVal_hexUpperDigit (n : Nat) (h : n < 16) :
    hexByteVal (hexUpperDigit n) = some n := by
  interval_cases n <;> decide

theorem isSafeByte_iff (b : Nat) : isSafeByte b = true ↔
    (48 ≤ b ∧ b ≤ 57) ∨ (65 ≤ b ∧ b ≤ 90) ∨ (97 ≤ b ∧ b ≤ 122) ∨
      b = 95 ∨ b = 46 ∨ b = 45 ∨ b = 126 := by
  simp [isSafeByte]
  tauto

theorem unquote_plus_esc (hx hy x y : Nat) (t : Bytes)
    (h1 : hexByteVal hx = some x) (h2 : hexByteVal hy = some y) :
    unquote_plus (37 :: hx :: hy :: t) = (16 * x + y) :: unquote_plus t := by
  simp [unquote_plus, h1, h2]

theorem unquote_plus_plusByte (t : Bytes) :
    unquote_plus (43 :: t) = 32 :: unquote_plus t := by
  rcases t with _ | ⟨x, _ | ⟨y, t2⟩⟩ <;> simp [unquote_plus]

theorem unquote_plus_cons_plain (b : Nat) (t : Bytes) (h37 : b ≠ 37) (h43 : b ≠ 43) :
    unquote_plus (b :: t) = b :: unquote_plus t := by
  rcases t with _ | ⟨x, _ | ⟨y, t2⟩⟩ <;> simp [unquote_plus, h37, h43]

theorem quote_plus_cons (b : Nat) (t : Bytes) :
    quote_plus (b :: t) = encByte b ++ quote_plus t := by
  simp [quote_plus]

theorem unquote_plus_encByte (b : Nat) (hb : b < 256) (t : Bytes) :
    unquote_plus (encByte b ++ t) = b :: unquote_plus t := by
  by_cases hs : isSafeByte b
  · have hp := (isSafeByte_iff b).mp hs
    have h37 : b ≠ 37 := by omega
    have h43 : b ≠ 43 := by omega
    simp [encByte, hs, unquote_plus_cons_plain b t h37 h43]
  · by_cases h32 : b = 32
    · subst h32
      simp [encByte, hs, unquote_plus_plusByte]
    · have hd : b / 16 < 16 := by omega
      have hm : b % 16 < 16 := by omega
      have e1 := hexByteVal_hexUpperDigit (b / 16) hd
      have e2 := hexByteVal_hexUpperDigit (b % 16) hm
      simp [encByte, hs, h32, unquote_plus_esc _ _ _ _ t e1 e2]
      omega

theorem unquote_quote_plus (bs : Bytes) (h : ∀ b ∈ bs, b < 256) :
    unquote_plus (quote_plus bs) = bs := by
  induction bs with
  | nil =>
    rw [show quote_plus [] = [] from rfl]
    simp [unquote_plus]
  | cons b rest ih =>
    have hb : b < 256 := h b (List.mem_cons_self b rest)
    have hrest : ∀ x ∈ rest, x < 256 := fun x hx => h x (List.mem_cons_of_mem b hx)
    rw [quote_plus_cons, unquote_plus_encByte b hb, ih hrest]

theorem hexUpperDigit_not_reserved (n : Nat) :
    hexUpperDigit n ≠ 64 ∧ hexUpperDigit n ≠ 58 ∧ hexUpperDigit n ≠ 47 := by
  unfold hexUpperDigit
  split <;> omega

theorem quote_plus_no_reserved (bs : Bytes) (b : Nat) (hb : b ∈ quote_plus bs) :
    b ≠ 64 ∧ b ≠ 58 ∧ b ≠ 47 := by
  induction bs with
  | nil => simp [quote_plus] at hb
  | cons c rest ih =>
    rw [quote_plus_cons] at hb
    rcases List.mem_append.mp hb with h1 | h2
    · unfold encByte at h1
      by_cases hs : isSafeByte c
      · rw [if_pos hs] at h1
        have hc : b = c := List.mem_singleton.mp h1
        subst hc
        have hp := (isSafeByte_iff b).mp hs
        omega
      · rw [if_neg hs] at h1
        by_cases h32 : c = 32
        · rw [if_pos h32] at h1
          have hc : b = 43 := List.mem_singleton.mp h1
          omega
        · rw [if_neg h32] at h1
          have d1 := hexUpperDigit_not_reserved (c / 16)
          have d2 := hexUpperDigit_not_reserved (c % 16)
          simp only [List.mem_cons, List.not_mem_nil, or_false] at h1
          rcases h1 with h | h | h <;> omega
    · exact ih h2

/-! ## Lemmas on fields, `$set` and the collection operations -/

theorem getField_eq_none (l : List (String × String)) (q : String)
    (h : q ∉ l.map Prod.fst) : getField l q = none := by
  induction l with
  | nil => rfl
  | cons p rest ih =>
    rcases p with ⟨k, v⟩
    simp only [List.map_cons, List.mem_cons] at h
    push_neg at h
    simp [getField, Ne.symm h.1, ih h.2]

theorem getField_append_some (a b : List (String × String)) (q v : String)
    (h : getField a q = some v) : getField (a ++ b) q = some v := by
  induction a with
  | nil => simp [getField] at h
  | cons p rest ih =>
    rcases p with ⟨k, w⟩
    by_cases hk : k = q
    · simp [getField, hk] at h ⊢
      exact h
    · simp [getField, hk] at h ⊢
      exact ih h

theorem getField_append_none (a b : List (String × String)) (q : String)
    (h : getField a q = none) : getField (a ++ b) q = getField b q := by
  induction a with
  | nil => rfl
  | cons p rest ih =>
    rcases p with ⟨k, w⟩
    by_cases hk : k = q
    · simp [getField, hk] at h
    · simp [getField, hk] at h ⊢
      exact ih h

theorem getField_setField_self (fs : List (String × String)) (k v : String) :
    getField (setField fs k v) k = some v := by
  induction fs with
  | nil => simp [setField, getField]
  | cons p rest ih =>
    rcases p with ⟨k1, v1⟩
    by_cases h : k1 = k
    · simp [setField, getField, h]
    · simp [setField, getField, h, ih]

theorem getField_setField_other (fs : List (String × String)) (k v q : String)
    (hq : q ≠ k) : getField (setField fs k v) q = getField fs q := by
  induction fs with
  | nil => simp [setField, getField, Ne.symm hq]
  | cons p rest ih =>
    rcases p with ⟨k1, v1⟩
    by_cases h : k1 = k
    · subst h
      simp [setField, getField, Ne.symm hq]
    · by_cases h2 : k1 = q
      · simp [setField, getField, h, h2, hq]
      · simp [setField, getField, h, h2, ih]

theorem applySet_cons (fs : List (String × String)) (k v : String)
    (rest : List (String × String)) :
    applySet fs ((k, v) :: rest) = applySet (setField fs k v) rest := rfl

theorem getField_applySet (fs upd : List (String × String)) (q : String)
    (hnodup : (upd.map Prod.fst).Nodup) :
    getField (applySet fs upd) q =
      match getField upd q with
      | some v => some v
      | none => getField fs q := by
  induction upd generalizing fs with
  | nil => simp [applySet, getField]
  | cons p rest ih =>
    rcases p with ⟨k, v⟩
    simp only [List.map_cons, List.nodup_cons] at hnodup
    rw [applySet_cons, ih (setField fs k v) hnodup.2]
    by_cases hq : q = k
    · subst hq
      have hr : getField rest q = none := getField_eq_none _ _ hnodup.1
      rw [hr]
      simp [getField, getField_setField_self]
    · cases hr : getField rest q with
      | some w => simp [getField, Ne.symm hq, hr]
      | none => simp [getField, Ne.symm hq, hr, getField_setField_other fs k v q hq]

theorem find_one_oid (c : Collection) (i : Nat) (d : StoredDoc)
    (h : find_one c i = some d) : d.oid = i := by
  induction c with
  | nil => simp [find_one] at h
  | cons d0 rest ih =>
    by_cases h0 : d0.oid = i
    · simp [find_one, h0] at h
      rw [← h]
      exact h0
    · simp [find_one, h0] at h
      exact ih h

theorem find_one_updateFirst (c : Collection) (i : Nat)
    (upd : List (String × String)) :
    find_one (updateFirst c i upd) i =
      (find_one c i).map (fun d => ⟨d.oid, applySet d.fields upd⟩) := by
  induction c with
  | nil => rfl
  | cons d0 rest ih =>
    by_cases h0 : d0.oid = i
    · simp [updateFirst, find_one, h0]
    · simp [updateFirst, find_one, h0, ih]

theorem find_one_eq_none_of_not_mem (c : Collection) (i : Nat)
    (h : i ∉ c.map StoredDoc.oid) : find_one c i = none := by
  induction c with
  | nil => rfl
  | cons d0 rest ih =>
    simp only [List.map_cons, List.mem_cons] at h
    push_neg at h
    simp [find_one, Ne.symm h.1, ih h.2]

theorem find_one_eraseFirst (c : Collection) (i : Nat)
    (hnodup : (c.map StoredDoc.oid).Nodup) :
    find_one (eraseFirst c i) i = none := by
  induction c with
  | nil => rfl
  | cons d0 rest ih =>
    simp only [List.map_cons, List.nodup_cons] at hnodup
    by_cases h0 : d0.oid = i
    · rw [show eraseFirst (d0 :: rest) i = rest from by simp [eraseFirst, h0]]
      subst h0
      exact find_one_eq_none_of_not_mem rest _ hnodup.1
    · rw [show eraseFirst (d0 :: rest) i = d0 :: eraseFirst rest i from by
        simp [eraseFirst, h0]]
      simp [find_one, h0, ih hnodup.2]

/-! ## Claims about the connection tester -/

/-- C6: for every connection request, the assembled connection string equals
`db_type ++ "://" ++ username ++ ":" ++ quote_plus password ++ "@" ++
host_port ++ "/" ++ database` with only the password percent-encoded; the
encoded password contains none of the reserved bytes `@` (64), `:` (58),
`/` (47), so it cannot corrupt the structure of the string; and the encoding
round-trips back to the original password. -/
theorem C6_connection_string (d : DBConnectionRequest)
    (hpw : ∀ b ∈ d.password, b < 256) :
    db_url d =
      d.db_type ++ [58, 47, 47] ++ d.username ++ [58] ++ quote_plus d.password ++
        [64] ++ d.host_port ++ [47] ++ d.database ∧
    (∀ b ∈ quote_plus d.password, b ≠ 64 ∧ b ≠ 58 ∧ b ≠ 47) ∧
    unquote_plus (quote_plus d.password) = d.password :=
  ⟨rfl, fun b hb => quote_plus_no_reserved _ b hb, unquote_quote_plus _ hpw⟩

/-- A concrete request: db_type `mysql`, host_port `host`, database `db`,
username `user`, password `p@ss` (the spec's example password). -/
def connReq : DBConnectionRequest :=
  ⟨[109, 121, 115, 113, 108], [104, 111, 115, 116], [100, 98],
    [117, 115, 101, 114], [112, 64, 115, 115]⟩

/-- C6 witness: the hypothesis holds and the round-trip succeeds for the
password `p@ss`. -/
theorem C6_connection_string_witness :
    (∀ b ∈ connReq.password, b < 256) ∧
    unquote_plus (quote_plus connReq.password) = connReq.password :=
  ⟨by decide, (C6_connection_string connReq (by decide)).2.2⟩

/-- C7: if the open/close cycle completes without error the endpoint returns
the success status with no further payload; otherwise it fails with HTTP 500
whose detail is exactly the driver's error description, unsanitized. -/
theorem C7_test_db_connection_result (attempt : Driver) (data : DBConnectionRequest) :
    (attempt (db_url data) = .ok () →
      test_db_connection attempt data = .ok ⟨"Database connection successful"⟩) ∧
    (∀ e, attempt (db_url data) = .error e →
      test_db_connection attempt data = .error ⟨500, some (pyExcStr e)⟩) := by
  constructor
  · intro h
    simp [test_db_connection, test_db, h]
  · intro e h
    cases e <;> simp [test_db_connection, test_db, h, pyExcStr]

/-- A driver whose open/close cycle always completes. -/
def okDriver : Driver := fun _ => .ok ()

/-- A driver that always raises an `OperationalError` with description
`x` (byte 120). -/
def failDriver : Driver := fun _ => .error (.operationalError [120])

/-- C7 witness: both branches at concrete drivers and the concrete request. -/
theorem C7_test_db_connection_witness :
    okDriver (db_url connReq) = .ok () ∧
    test_db_connection okDriver connReq = .ok ⟨"Database connection successful"⟩ ∧
    failDriver (db_url connReq) = .error (.operationalError [120]) ∧
    test_db_connection failDriver connReq = .error ⟨500, some [120]⟩ :=
  ⟨rfl, (C7_test_db_connection_result okDriver connReq).1 rfl, rfl,
    (C7_test_db_connection_result failDriver connReq).2 _ rfl⟩

/-- C9: `test_db` is total: it returns `(True, None)` when the cycle
completes, returns `(False, str(e))` when any driver exception is raised, and
never propagates an exception (its result is always `.ok`). -/
theorem C9_test_db_total (attempt : Driver) (url : Bytes) :
    (attempt url = .ok () → test_db attempt url = .ok (true, none)) ∧
    (∀ e, attempt url = .error e →
      test_db attempt url = .ok (false, some (pyExcStr e))) ∧
    ∃ r, test_db attempt url = .ok r := by
  refine ⟨?_, ?_, ?_⟩
  · intro h
    simp [test_db, h]
  · intro e h
    cases e <;> simp [test_db, h, pyExcStr]
  · cases h : attempt url with
    | ok u =>
      cases u
      exact ⟨(true, none), by simp [test_db, h]⟩
    | error e =>
      cases e with
      | operationalError m => exact ⟨(false, some m), by simp [test_db, h]⟩
      | otherError m => exact ⟨(false, some m), by simp [test_db, h]⟩

/-- C9 witness: both hypotheses discharged at concrete drivers. -/
theorem C9_test_db_total_witness :
    okDriver [1] = .ok () ∧ test_db okDriver [1] = .ok (true, none) ∧
    ∃ r, test_db failDriver [1] = .ok r :=
  ⟨rfl, (C9_test_db_total okDriver [1]).1 rfl, (C9_test_db_total failDriver [1]).2.2⟩

/-- C10: `db_type`, `username`, `host_port` and `database` are inserted into
the connection string byte-for-byte with no percent-encoding, and this
corrupts the string for some username containing the reserved bytes `:` (58)
and `@` (64): two requests with different usernames assemble to the very same
connection string. -/
theorem C10_only_password_encoded (d : DBConnectionRequest) :
    db_url d =
      d.db_type ++ [58, 47, 47] ++ d.username ++ [58] ++ quote_plus d.password ++
        [64] ++ d.host_port ++ [47] ++ d.database ∧
    ∃ r1 r2 : DBConnectionRequest,
      r1.username ≠ r2.username ∧ 58 ∈ r1.username ∧ 64 ∈ r1.username ∧
      db_url r1 = db_url r2 := by
  refine ⟨rfl,
    ⟨[116], [104], [100], [97, 58, 98, 64, 99], [112]⟩,
    ⟨[116], [99, 58, 112, 64, 104], [100], [97], [98]⟩, ?_, ?_, ?_, ?_⟩
  · decide
  · decide
  · decide
  · rfl

/-! ## Claims about the CRUD routes -/

/-- C1 counterexample: the claim promises a 400 (never 404 or 500) on every
request whose id fails to parse, but `get_config` checks the collection
handle before parsing the id: with the handle unobtainable and the malformed
id `not-an-id` the result is a 500, not a 400. -/
theorem C1_get_config_counterexample :
    parseObjectId "not-an-id" = none ∧
    get_config none "not-an-id" = .error ⟨500, "Collection not found"⟩ := by
  constructor
  · decide
  · rfl

/-- C1 (amended): provided the collection handle is obtainable, a request
whose id fails to parse yields 400 (never 404 or 500), a well-formed id with
no matching document yields 404, and a matching document is returned with its
`_id` stringified. -/
theorem C1_get_config_contract (coll : Collection) (cid : String) :
    (parseObjectId cid = none →
      get_config (some coll) cid = .error ⟨400, "Invalid config ID format"⟩) ∧
    (∀ oid, parseObjectId cid = some oid → find_one coll oid = none →
      get_config (some coll) cid = .error ⟨404, "Config not found"⟩) ∧
    (∀ oid d, parseObjectId cid = some oid → find_one coll oid = some d →
      get_config (some coll) cid = .ok ⟨oidToString d.oid, d.fields⟩) := by
  refine ⟨?_, ?_, ?_⟩
  · intro h
    simp [get_config, h]
  · intro oid h1 h2
    simp [get_config, h1, h2]
  · intro oid d h1 h2
    simp [get_config, h1, h2, format_mongo_obj]

/-- A stored document with identifier 5 and two fields. -/
def doc5 : StoredDoc := ⟨5, [("field_a", "orig"), ("field_b", "keep")]⟩

/-- C1 (amended) witness: the found branch at a concrete store and id. -/
theorem C1_get_config_contract_witness :
    parseObjectId (oidToString 5) = some 5 ∧
    find_one [doc5] 5 = some doc5 ∧
    get_config (some [doc5]) (oidToString 5) = .ok ⟨oidToString 5, doc5.fields⟩ :=
  ⟨rfl, rfl, (C1_get_config_contract [doc5] (oidToString 5)).2.2 5 doc5 rfl rfl⟩

/-- C2: for an existing document and any update payload with duplicate-free
keys, the `$set` applied by `update_config` binds exactly the explicitly-set
fields of the payload to their new values, leaves every other field of the
stored document unchanged, and — when the update modified the document — the
route returns the re-fetched post-update document with its id stringified
(the store keeping only the first matching document rewritten). -/
theorem C2_update_config_frame (coll : Collection) (cid : String) (oid : Nat)
    (doc : StoredDoc) (upd : TafsiriConfigSchema)
    (hparse : parseObjectId cid = some oid)
    (hfind : find_one coll oid = some doc)
    (hnodup : (upd.setFields.map Prod.fst).Nodup) :
    (∀ q v, getField upd.setFields q = some v →
      getField (applySet doc.fields upd.setFields) q = some v) ∧
    (∀ q, getField upd.setFields q = none →
      getField (applySet doc.fields upd.setFields) q = getField doc.fields q) ∧
    (applySet doc.fields upd.setFields ≠ doc.fields →
      update_config cid upd (some coll) =
        (some (updateFirst coll oid upd.setFields),
          .ok ⟨oidToString doc.oid, applySet doc.fields upd.setFields⟩)) := by
  refine ⟨?_, ?_, ?_⟩
  · intro q v hv
    rw [getField_applySet _ _ _ hnodup, hv]
  · intro q hq
    rw [getField_applySet _ _ _ hnodup, hq]
  · intro hch
    have hupdone : update_one coll oid upd.setFields =
        (updateFirst coll oid upd.setFields,
          ⟨1, if applySet doc.fields upd.setFields = doc.fields then 0 else 1⟩) := by
      simp [update_one, hfind]
    have hrefetch : find_one (updateFirst coll oid upd.setFields) oid =
        some ⟨doc.oid, applySet doc.fields upd.setFields⟩ := by
      rw [find_one_updateFirst, hfind]
      rfl
    simp [update_config, hparse, hfind, model_dump_exclude_unset, hupdone, if_neg hch,
      hrefetch, format_mongo_obj]

/-- The spec's example update payload: sets only `field_a`. -/
def updX : TafsiriConfigSchema := ⟨[("field_a", "x")], []⟩

/-- C2 witness: the spec's example — updating `field_a` to `x` on a document
`{field_a: orig, field_b: keep}` yields `{field_a: x, field_b: keep}`. -/
theorem C2_update_config_frame_witness :
    parseObjectId (oidToString 5) = some 5 ∧
    find_one [doc5] 5 = some doc5 ∧
    update_config (oidToString 5) updX (some [doc5]) =
      (some [⟨5, [("field_a", "x"), ("field_b", "keep")]⟩],
        .ok ⟨oidToString 5, [("field_a", "x"), ("field_b", "keep")]⟩) :=
  ⟨rfl, rfl,
    (C2_update_config_frame [doc5] (oidToString 5) 5 doc5 updX rfl rfl
      (by decide)).2.2 (by decide)⟩

/-- C3: past the id-parsing, availability and existence checks, a `$set`
that leaves the document unchanged is reported as zero modified documents,
and zero modified documents makes `update_config` fail with the generic 400
update error (the same error a genuine update failure would produce). -/
theorem C3_update_zero_modified (coll : Collection) (cid : String) (oid : Nat)
    (doc : StoredDoc) (upd : TafsiriConfigSchema)
    (hparse : parseObjectId cid = some oid)
    (hfind : find_one coll oid = some doc) :
    (applySet doc.fields upd.setFields = doc.fields →
      (update_one coll oid upd.setFields).2.modified_count = 0) ∧
    ((update_one coll oid upd.setFields).2.modified_count = 0 →
      (update_config cid upd (some coll)).2 =
        .error ⟨400, "Configuration could not be updated"⟩) := by
  constructor
  · intro hnoop
    simp [update_one, hfind, hnoop]
  · intro hzero
    have h1 : ¬((update_one coll oid upd.setFields).2.modified_count = 1) := by
      omega
    simp only [update_config, hparse, hfind, model_dump_exclude_unset]
    simp [h1]

/-- C3 witness: the no-op update (re-asserting `field_a = orig`) on `doc5`
modifies nothing and is rejected with the generic 400 update error. -/
theorem C3_update_zero_modified_witness :
    applySet doc5.fields [("field_a", "orig")] = doc5.fields ∧
    (update_config (oidToString 5) ⟨[("field_a", "orig")], []⟩ (some [doc5])).2 =
      .error ⟨400, "Configuration could not be updated"⟩ := by
  have h := C3_update_zero_modified [doc5] (oidToString 5) 5 doc5
    ⟨[("field_a", "orig")], []⟩ rfl rfl
  exact ⟨by decide, h.2 (h.1 (by decide))⟩

/-- C4: `create_new_config` inserts exactly the explicitly-set fields of the
payload (the schema defaults for unset fields play no role at all); when the
store reports an inserted identifier the route returns the inserted payload
annotated with that identifier stringified, and when no identifier is
reported it fails with the generic 400 creation error. -/
theorem C4_create_contract (config : TafsiriConfigSchema) (coll : Collection)
    (report : Option Nat) :
    (∀ i, report = some i →
      create_new_config config coll report =
        (coll ++ [⟨i, config.setFields⟩], .ok ⟨oidToString i, config.setFields⟩)) ∧
    (report = none →
      create_new_config config coll report =
        (coll, .error ⟨400, "Configuration could not be created"⟩)) ∧
    (∀ defaults, create_new_config ⟨config.setFields, defaults⟩ coll report =
      create_new_config config coll report) := by
  refine ⟨?_, ?_, ?_⟩
  · intro i h
    subst h
    rfl
  · intro h
    subst h
    rfl
  · intro defaults
    rfl

/-- C4 witness: both store outcomes at concrete payloads; the unset-field
default `field_b` is not inserted. -/
theorem C4_create_contract_witness :
    create_new_config ⟨[("field_a", "x")], [("field_b", "default")]⟩ [] (some 7) =
      ([⟨7, [("field_a", "x")]⟩], .ok ⟨oidToString 7, [("field_a", "x")]⟩) ∧
    create_new_config ⟨[("field_a", "x")], []⟩ [] none =
      ([], .error ⟨400, "Configuration could not be created"⟩) :=
  ⟨(C4_create_contract ⟨[("field_a", "x")], [("field_b", "default")]⟩ [] (some 7)).1 7 rfl,
    (C4_create_contract ⟨[("field_a", "x")], []⟩ [] none).2.1 rfl⟩

/-- C5: with a well-formed id and an available store, `delete_config`
returns the success confirmation exactly when one document was removed and
fails 404 otherwise; in particular, deleting the same id twice succeeds the
first time and yields 404 the second time (ids being unique in the store). -/
theorem C5_delete_contract (coll : Collection) (cid : String) (oid : Nat)
    (hparse : parseObjectId cid = some oid)
    (hnodup : (coll.map StoredDoc.oid).Nodup) :
    ((delete_config (some coll) cid).2 = .ok ⟨"Config deleted successfully"⟩ ↔
      (delete_one coll oid).2.deleted_count = 1) ∧
    (find_one coll oid = none →
      (delete_config (some coll) cid).2 = .error ⟨404, "Config not found"⟩) ∧
    (∀ d, find_one coll oid = some d →
      delete_config (some coll) cid =
        (some (eraseFirst coll oid), .ok ⟨"Config deleted successfully"⟩) ∧
      (delete_config (some (eraseFirst coll oid)) cid).2 =
        .error ⟨404, "Config not found"⟩) := by
  refine ⟨?_, ?_, ?_⟩
  · cases hf : find_one coll oid with
    | none => simp [delete_config, hparse, delete_one, hf]
    | some d => simp [delete_config, hparse, delete_one, hf]
  · intro hf
    simp [delete_config, hparse, delete_one, hf]
  · intro d hf
    constructor
    · simp [delete_config, hparse, delete_one, hf]
    · have he : find_one (eraseFirst coll oid) oid = none :=
        find_one_eraseFirst coll oid hnodup
      simp [delete_config, hparse, delete_one, he]

/-- C5 witness: deleting id 5 from the one-document store succeeds and
empties it; deleting it again yields 404. -/
theorem C5_delete_contract_witness :
    find_one [doc5] 5 = some doc5 ∧
    delete_config (some [doc5]) (oidToString 5) =
      (some [], .ok ⟨"Config deleted successfully"⟩) ∧
    (delete_config (some []) (oidToString 5)).2 = .error ⟨404, "Config not found"⟩ := by
  have h := (C5_delete_contract [doc5] (oidToString 5) 5 rfl (by decide)).2.2 doc5 rfl
  exact ⟨rfl, h.1, h.2⟩

/-- C8: when the store is reachable, `get_configs` returns `.ok` of an array
holding one entry per stored document — never an error — and each entry is
the corresponding document with its identifier stringified. -/
theorem C8_get_configs_contract (coll : Collection) :
    get_configs coll = .ok (coll.map format_mongo_obj) ∧
    (coll.map format_mongo_obj).length = coll.length ∧
    ∀ i (h : i < coll.length),
      (coll.map format_mongo_obj).get ⟨i, by simpa using h⟩ =
        ⟨oidToString (coll.get ⟨i, h⟩).oid, (coll.get ⟨i, h⟩).fields⟩ := by
  refine ⟨rfl, List.length_map _ _, ?_⟩
  intro i h
  simp [List.get_eq_getElem, List.getElem_map, format_mongo_obj]

/-- C8 witness: the singleton store lists as a one-element array with the id
stringified. -/
theorem C8_get_configs_contract_witness :
    get_configs [doc5] = .ok [⟨oidToString 5, doc5.fields⟩] ∧
    (List.map format_mongo_obj [doc5]).get ⟨0, by decide⟩ =
      ⟨oidToString 5, doc5.fields⟩ := by
  have h := C8_get_configs_contract [doc5]
  exact ⟨h.1, h.2.2 0 (by decide)⟩

end Tafsiri
